import Mathlib

/-!
Verification development for the `chuk_mcp_perplexity` package
(`src/chuk_mcp_perplexity/models.py` and `src/chuk_mcp_perplexity/tools.py`).

The package exposes five async MCP tools.  Each tool body has the same shape:

  1. construct a pydantic input model from the caller-supplied `query`
     (a `str = Field(...)` field; pydantic v2 rejects non-`str` values and
     accepts any string, the empty string included); a `ValidationError`
     is re-raised as `ValueError("Invalid input for <tool>: {exc}")`;
  2. build the provider prompt (some tools wrap the validated query in a
     fixed f-string template) and call
     `client.create_completion(messages=[{"role": "user", "content": prompt}])`;
  3. wrap `result["response"]` in the pydantic result model and return its
     `model_dump()`, i.e. the dict `{"answer": <text>}`;
  4. `except asyncio.TimeoutError` is re-raised as
     `ValueError("<tool> timed out after <N> seconds")` and any other
     exception as `ValueError("<tool> failed: {str(e)}")`.

The embedding below mirrors that structure.  Python run-time values that can
flow through the pipeline are modelled by `PyVal`; exceptions raised to the
caller are modelled by the `.error` branch of `Except String`, carrying the
`ValueError` message.  The external completion client is dependency-injected
as a function of the user-message content (every call site sends exactly one
user message), and each tool records the list of prompts it sent to the
provider, so that "the provider is never invoked" is the statement that this
list is empty.
-/

/-- A Python run-time value, restricted to the shapes that can flow through
these tools: strings, ints, `None`, bools, lists and (string-keyed) dicts. -/
inductive PyVal where
  | str (s : String)
  | int (n : Int)
  | none
  | bool (b : Bool)
  | list (xs : List PyVal)
  | dict (kvs : List (String × PyVal))

/-- Whether a Python value is a `str`. -/
def PyVal.isStr : PyVal → Bool
  | .str _ => true
  | _ => false

/-- Python `type(v).__name__` for the modelled values. -/
def pyTypeName : PyVal → String
  | .str _ => "str"
  | .int _ => "int"
  | .none => "NoneType"
  | .bool _ => "bool"
  | .list _ => "list"
  | .dict _ => "dict"

mutual

/-- Python `repr` of a modelled value (as used by f-string conversion of
containers and by pydantic error detail).  Quotes are `\x27`, braces `\x7b`/`\x7d`. -/
def pyRepr : PyVal → String
  | .str s => "\x27" ++ s ++ "\x27"
  | .int n => toString n
  | .none => "None"
  | .bool b => if b then "True" else "False"
  | .list xs => "[" ++ pyReprList xs ++ "]"
  | .dict kvs => "\x7b" ++ pyReprDict kvs ++ "\x7d"

/-- Comma-separated `repr`s of a list's elements. -/
def pyReprList : List PyVal → String
  | [] => ""
  | [x] => pyRepr x
  | x :: xs => pyRepr x ++ ", " ++ pyReprList xs

/-- Comma-separated `repr`s of a dict's entries. -/
def pyReprDict : List (String × PyVal) → String
  | [] => ""
  | [(k, v)] => "\x27" ++ k ++ "\x27: " ++ pyRepr v
  | (k, v) :: kvs => "\x27" ++ k ++ "\x27: " ++ pyRepr v ++ ", " ++ pyReprDict kvs

end

/-- Python `str(v)`: the f-string conversion applied by
`f"Quick fact: {query}"` in `perplexity_quick_fact`.  `str` values pass
through unchanged; every other value is rendered as text (so the conversion
never fails). -/
def pyStr : PyVal → String
  | .str s => s
  | .int n => toString n
  | .none => "None"
  | .bool b => if b then "True" else "False"
  | .list xs => "[" ++ pyReprList xs ++ "]"
  | .dict kvs => "\x7b" ++ pyReprDict kvs ++ "\x7d"

/-- The text of the pydantic v2 `ValidationError` raised when a required
`str` field receives a non-`str` value (message shape modelled after
pydantic's `string_type` error; the exact wording is not load-bearing for
any claim, only that it carries the model, field and offending input). -/
def string_type_error (model : String) (field : String) (input : PyVal) : String :=
  "1 validation error for " ++ model ++ "\n" ++ field ++
    "\n  Input should be a valid string [type=string_type, input_value=" ++
    pyRepr input ++ ", input_type=" ++ pyTypeName input ++ "]"

/-- `class PerplexitySearchInput(BaseModel): query: str = Field(...)`
(models.py).  Also used by `perplexity_quick_fact`. -/
structure PerplexitySearchInput where
  query : String
deriving Repr, DecidableEq

/-- Constructing `PerplexitySearchInput(query=q)`: pydantic v2 accepts
exactly the `str` values (any string, `""` included) and raises a
`ValidationError` otherwise. -/
def PerplexitySearchInput.ofPy (query : PyVal) : Except String PerplexitySearchInput :=
  match query with
  | .str s => .ok ⟨s⟩
  | v => .error (string_type_error "PerplexitySearchInput" "query" v)

/-- `class PerplexityResearchInput(BaseModel): query: str = Field(...)` (models.py). -/
structure PerplexityResearchInput where
  query : String
deriving Repr, DecidableEq

/-- Constructing `PerplexityResearchInput(query=q)`. -/
def PerplexityResearchInput.ofPy (query : PyVal) : Except String PerplexityResearchInput :=
  match query with
  | .str s => .ok ⟨s⟩
  | v => .error (string_type_error "PerplexityResearchInput" "query" v)

/-- `class PerplexitySearchResult(BaseModel): answer: str = Field(...)` (models.py). -/
structure PerplexitySearchResult where
  answer : String
deriving Repr, DecidableEq

/-- Constructing `PerplexitySearchResult(answer=a)`: the `answer` field must
be a `str`. -/
def PerplexitySearchResult.ofPy (answer : PyVal) : Except String PerplexitySearchResult :=
  match answer with
  | .str s => .ok ⟨s⟩
  | v => .error (string_type_error "PerplexitySearchResult" "answer" v)

/-- `PerplexitySearchResult.model_dump()`: the dict `{"answer": <answer>}`. -/
def PerplexitySearchResult.model_dump (r : PerplexitySearchResult) : List (String × PyVal) :=
  [("answer", .str r.answer)]

/-- `class PerplexityResearchResult(BaseModel): answer: str = Field(...)` (models.py). -/
structure PerplexityResearchResult where
  answer : String
deriving Repr, DecidableEq

/-- Constructing `PerplexityResearchResult(answer=a)`. -/
def PerplexityResearchResult.ofPy (answer : PyVal) : Except String PerplexityResearchResult :=
  match answer with
  | .str s => .ok ⟨s⟩
  | v => .error (string_type_error "PerplexityResearchResult" "answer" v)

/-- `PerplexityResearchResult.model_dump()`: the dict `{"answer": <answer>}`. -/
def PerplexityResearchResult.model_dump (r : PerplexityResearchResult) : List (String × PyVal) :=
  [("answer", .str r.answer)]

/-- Python `result[key]` on the provider's raw result: dict lookup raising
`KeyError` (whose `str` is the quoted key) when the key is absent; on a
non-dict value the subscript raises a `TypeError` (its message text is not
load-bearing and is abbreviated here).  Both exceptions land in the tools'
`except Exception` handler. -/
def pyGetItem (v : PyVal) (key : String) : Except String PyVal :=
  match v with
  | .dict kvs =>
    match kvs.lookup key with
    | some x => .ok x
    | Option.none => .error ("\x27" ++ key ++ "\x27")
  | other => .error ("\x27" ++ pyTypeName other ++ "\x27 object is not subscriptable")

/-- One observable behaviour of `await client.create_completion(messages=...)`
for a given prompt: it returns a raw result, raises `asyncio.TimeoutError`,
or raises some other exception whose `str(e)` is `msg`. -/
inductive ProviderBehavior where
  | returns (v : PyVal)
  | timesOut
  | raises (msg : String)

/-- What one tool invocation produced: the value returned to the caller (or
the `ValueError` message raised to it), together with the list of prompts
sent to the completion provider during the invocation. -/
structure ToolResult where
  result : Except String (List (String × PyVal))
  providerPrompts : List String

/-- Number of provider invocations performed by one tool call. -/
def ToolResult.providerCalls (r : ToolResult) : Nat :=
  r.providerPrompts.length

/-- `timeout=30` configured on the `perplexity_search` registration (tools.py). -/
def perplexity_search_timeout : Nat := 30

/-- `timeout=90` configured on the `perplexity_deep_research` registration. -/
def perplexity_deep_research_timeout : Nat := 90

/-- `timeout=15` configured on the `perplexity_quick_fact` registration. -/
def perplexity_quick_fact_timeout : Nat := 15

/-- `timeout=45` configured on the `perplexity_search_with_citations` registration. -/
def perplexity_search_with_citations_timeout : Nat := 45

/-- `timeout=45` configured on the `perplexity_current_events` registration. -/
def perplexity_current_events_timeout : Nat := 45

/-- `async def perplexity_search(query) -> Dict` (tools.py).  The completion
client is dependency-injected as `create_completion`, a function of the user
message content; `get_client` is modelled as always succeeding (it merely
constructs the injected capability). -/
def perplexity_search (query : PyVal)
    (create_completion : String → ProviderBehavior) : ToolResult :=
  match PerplexitySearchInput.ofPy query with
  | .error exc =>
    { result := .error ("Invalid input for perplexity_search: " ++ exc)
      providerPrompts := [] }
  | .ok validated =>
    match create_completion validated.query with
    | .timesOut =>
      { result := .error "Perplexity search timed out after 30 seconds"
        providerPrompts := [validated.query] }
    | .raises e =>
      { result := .error ("Perplexity search failed: " ++ e)
        providerPrompts := [validated.query] }
    | .returns r =>
      match pyGetItem r "response" with
      | .error e =>
        { result := .error ("Perplexity search failed: " ++ e)
          providerPrompts := [validated.query] }
      | .ok a =>
        match PerplexitySearchResult.ofPy a with
        | .error e =>
          { result := .error ("Perplexity search failed: " ++ e)
            providerPrompts := [validated.query] }
        | .ok res =>
          { result := .ok res.model_dump
            providerPrompts := [validated.query] }

/-- The `research_prompt` f-string template of `perplexity_deep_research`. -/
def research_prompt (q : String) : String :=
  "Please provide a comprehensive, well-researched answer to: " ++ q ++
    "\n\nRequirements:\n- Include multiple reliable sources with citations\n" ++
    "- Provide detailed analysis and context\n" ++
    "- Include relevant statistics or data when available\n" ++
    "- Mention any conflicting viewpoints or limitations\n" ++
    "- Use clear, structured formatting"

/-- `async def perplexity_deep_research(query) -> Dict` (tools.py). -/
def perplexity_deep_research (query : PyVal)
    (create_completion : String → ProviderBehavior) : ToolResult :=
  match PerplexityResearchInput.ofPy query with
  | .error exc =>
    { result := .error ("Invalid input for perplexity_deep_research: " ++ exc)
      providerPrompts := [] }
  | .ok validated =>
    match create_completion (research_prompt validated.query) with
    | .timesOut =>
      { result := .error "Perplexity deep research timed out after 90 seconds"
        providerPrompts := [research_prompt validated.query] }
    | .raises e =>
      { result := .error ("Perplexity deep research failed: " ++ e)
        providerPrompts := [research_prompt validated.query] }
    | .returns r =>
      match pyGetItem r "response" with
      | .error e =>
        { result := .error ("Perplexity deep research failed: " ++ e)
          providerPrompts := [research_prompt validated.query] }
      | .ok a =>
        match PerplexityResearchResult.ofPy a with
        | .error e =>
          { result := .error ("Perplexity deep research failed: " ++ e)
            providerPrompts := [research_prompt validated.query] }
        | .ok res =>
          { result := .ok res.model_dump
            providerPrompts := [research_prompt validated.query] }

/-- `async def perplexity_quick_fact(query) -> Dict` (tools.py).  Note the
source builds `PerplexitySearchInput(query=f"Quick fact: {query}")`: the
f-string converts the RAW input to text BEFORE validation, so validation is
applied to an always-`str` value and never fails. -/
def perplexity_quick_fact (query : PyVal)
    (create_completion : String → ProviderBehavior) : ToolResult :=
  match PerplexitySearchInput.ofPy (.str ("Quick fact: " ++ pyStr query)) with
  | .error exc =>
    { result := .error ("Invalid input for perplexity_quick_fact: " ++ exc)
      providerPrompts := [] }
  | .ok validated =>
    match create_completion validated.query with
    | .timesOut =>
      { result := .error "Perplexity quick fact timed out after 15 seconds"
        providerPrompts := [validated.query] }
    | .raises e =>
      { result := .error ("Perplexity quick fact failed: " ++ e)
        providerPrompts := [validated.query] }
    | .returns r =>
      match pyGetItem r "response" with
      | .error e =>
        { result := .error ("Perplexity quick fact failed: " ++ e)
          providerPrompts := [validated.query] }
      | .ok a =>
        match PerplexitySearchResult.ofPy a with
        | .error e =>
          { result := .error ("Perplexity quick fact failed: " ++ e)
            providerPrompts := [validated.query] }
        | .ok res =>
          { result := .ok res.model_dump
            providerPrompts := [validated.query] }

/-- The `enhanced_query` f-string template of `perplexity_search_with_citations`. -/
def enhanced_query (q : String) : String :=
  "Please provide a comprehensive answer to: " ++ q ++
    "\n\nPlease include:\n- Clear, specific citations for all facts\n" ++
    "- Source URLs where possible\n" ++
    "- Publication dates when available\n" ++
    "- Multiple sources for verification"

/-- `async def perplexity_search_with_citations(query) -> Dict` (tools.py). -/
def perplexity_search_with_citations (query : PyVal)
    (create_completion : String → ProviderBehavior) : ToolResult :=
  match PerplexitySearchInput.ofPy query with
  | .error exc =>
    { result := .error ("Invalid input for perplexity_search_with_citations: " ++ exc)
      providerPrompts := [] }
  | .ok validated =>
    match create_completion (enhanced_query validated.query) with
    | .timesOut =>
      { result := .error "Perplexity search with citations timed out after 45 seconds"
        providerPrompts := [enhanced_query validated.query] }
    | .raises e =>
      { result := .error ("Perplexity search with citations failed: " ++ e)
        providerPrompts := [enhanced_query validated.query] }
    | .returns r =>
      match pyGetItem r "response" with
      | .error e =>
        { result := .error ("Perplexity search with citations failed: " ++ e)
          providerPrompts := [enhanced_query validated.query] }
      | .ok a =>
        match PerplexitySearchResult.ofPy a with
        | .error e =>
          { result := .error ("Perplexity search with citations failed: " ++ e)
            providerPrompts := [enhanced_query validated.query] }
        | .ok res =>
          { result := .ok res.model_dump
            providerPrompts := [enhanced_query validated.query] }

/-- The `events_prompt` f-string template of `perplexity_current_events`. -/
def events_prompt (q : String) : String :=
  "Please provide current news and recent developments about: " ++ q ++
    "\n\nFocus on:\n- Latest news from the past week\n" ++
    "- Recent developments and trends\n" ++
    "- Reliable news sources with publication dates\n" ++
    "- Key facts and figures\n" ++
    "- Important context for understanding current situation"

/-- `async def perplexity_current_events(query) -> Dict` (tools.py). -/
def perplexity_current_events (query : PyVal)
    (create_completion : String → ProviderBehavior) : ToolResult :=
  match PerplexitySearchInput.ofPy query with
  | .error exc =>
    { result := .error ("Invalid input for perplexity_current_events: " ++ exc)
      providerPrompts := [] }
  | .ok validated =>
    match create_completion (events_prompt validated.query) with
    | .timesOut =>
      { result := .error "Perplexity current events search timed out after 45 seconds"
        providerPrompts := [events_prompt validated.query] }
    | .raises e =>
      { result := .error ("Perplexity current events search failed: " ++ e)
        providerPrompts := [events_prompt validated.query] }
    | .returns r =>
      match pyGetItem r "response" with
      | .error e =>
        { result := .error ("Perplexity current events search failed: " ++ e)
          providerPrompts := [events_prompt validated.query] }
      | .ok a =>
        match PerplexitySearchResult.ofPy a with
        | .error e =>
          { result := .error ("Perplexity current events search failed: " ++ e)
            providerPrompts := [events_prompt validated.query] }
        | .ok res =>
          { result := .ok res.model_dump
            providerPrompts := [events_prompt validated.query] }

/-- Modelled from the spec: the time-budget race is implemented by the
external tool-host runtime (the `mcp_tool` decorator imported from
`chuk_mcp_runtime`, which is not part of this repository); per spec section
4.3 step 3, the pipeline invokes the provider call under a race against
`time_budget`, and "if the budget elapses first, fail with kind Timeout".
A provider call whose duration exceeds the budget is therefore observed by
the tool body as `asyncio.TimeoutError`; otherwise its own behaviour is
observed. -/
def runWithBudget (time_budget : Nat) (duration : Nat)
    (b : ProviderBehavior) : ProviderBehavior :=
  if time_budget < duration then .timesOut else b

/-- The deterministic echo stub used by the repository's tests: the fake
client returns `{"response": f"mock-answer: {messages[-1]["content"]}"}`. -/
def echoProvider (prompt : String) : ProviderBehavior :=
  .returns (.dict [("response", .str ("mock-answer: " ++ prompt))])


/-- Two sequential invocations of the same tool with the same raw input and
the same injected provider capability.  `tools.py` defines only functions and
holds no mutable module-level state, so an invocation is a pure function of
its input and of the injected capability; the pair below is (first call,
second call). -/
def invokeTwice (tool : PyVal → (String → ProviderBehavior) → ToolResult)
    (v : PyVal) (p : String → ProviderBehavior) : ToolResult × ToolResult :=
  (tool v p, tool v p)

/-- Helper: `perplexity_quick_fact` always sends exactly the prefixed prompt
to the provider, for EVERY raw input (the f-string runs before validation,
so validation never fails). -/
theorem quick_fact_prompts (v : PyVal) (p : String → ProviderBehavior) :
    (perplexity_quick_fact v p).providerPrompts = ["Quick fact: " ++ pyStr v] := by
  unfold perplexity_quick_fact
  (repeat' split) <;> simp_all [PerplexitySearchInput.ofPy] <;> subst_vars <;> rfl

/-- Helper: on a `str` input, `perplexity_search` sends exactly the validated
query to the provider, whatever the provider then does. -/
theorem search_prompts (s : String) (p : String → ProviderBehavior) :
    (perplexity_search (.str s) p).providerPrompts = [s] := by
  unfold perplexity_search
  (repeat' split) <;> simp_all [PerplexitySearchInput.ofPy] <;> subst_vars <;> rfl

/-- Helper: on a `str` input, `perplexity_deep_research` sends exactly the
research-template prompt to the provider. -/
theorem deep_research_prompts (s : String) (p : String → ProviderBehavior) :
    (perplexity_deep_research (.str s) p).providerPrompts = [research_prompt s] := by
  unfold perplexity_deep_research
  (repeat' split) <;> simp_all [PerplexityResearchInput.ofPy] <;> subst_vars <;> rfl

/-- Helper: on a `str` input, `perplexity_search_with_citations` sends exactly
the citation-template prompt to the provider. -/
theorem citations_prompts (s : String) (p : String → ProviderBehavior) :
    (perplexity_search_with_citations (.str s) p).providerPrompts = [enhanced_query s] := by
  unfold perplexity_search_with_citations
  (repeat' split) <;> simp_all [PerplexitySearchInput.ofPy] <;> subst_vars <;> rfl

/-- Helper: on a `str` input, `perplexity_current_events` sends exactly the
events-template prompt to the provider. -/
theorem current_events_prompts (s : String) (p : String → ProviderBehavior) :
    (perplexity_current_events (.str s) p).providerPrompts = [events_prompt s] := by
  unfold perplexity_current_events
  (repeat' split) <;> simp_all [PerplexitySearchInput.ofPy] <;> subst_vars <;> rfl

/-- C3: for every valid text input and a provider call returning a mapping
with a text value under the `"response"` key, `perplexity_search` succeeds
and returns exactly the dict whose `"answer"` is that value; in particular
the repository's test scenario (input `"Hello?"`, fast variant, echo stub)
yields the dict with answer `"mock-answer: Hello?"`. -/
theorem c3_valid_input_success_answer (q X : String) :
    (perplexity_search (.str q)
        (fun _ => .returns (.dict [("response", .str X)]))).result =
      .ok [("answer", .str X)]
    ∧ (perplexity_search (.str "Hello?") echoProvider).result =
      .ok [("answer", .str "mock-answer: Hello?")] :=
  ⟨rfl, rfl⟩

/-- C6: for every valid text input and a provider call raising an arbitrary
error, every tool fails with the provider-error message wrapper preserving
the underlying message as a suffix (hence substring), with exactly one
provider invocation (no retry). -/
theorem c6_provider_error_preserves_message (q msg : String) :
    perplexity_search (.str q) (fun _ => .raises msg) =
      ⟨.error ("Perplexity search failed: " ++ msg), [q]⟩
    ∧ perplexity_deep_research (.str q) (fun _ => .raises msg) =
      ⟨.error ("Perplexity deep research failed: " ++ msg), [research_prompt q]⟩
    ∧ perplexity_quick_fact (.str q) (fun _ => .raises msg) =
      ⟨.error ("Perplexity quick fact failed: " ++ msg), ["Quick fact: " ++ q]⟩
    ∧ perplexity_search_with_citations (.str q) (fun _ => .raises msg) =
      ⟨.error ("Perplexity search with citations failed: " ++ msg), [enhanced_query q]⟩
    ∧ perplexity_current_events (.str q) (fun _ => .raises msg) =
      ⟨.error ("Perplexity current events search failed: " ++ msg), [events_prompt q]⟩ :=
  ⟨rfl, rfl, rfl, rfl, rfl⟩

/-- C7: for every raw input and every provider capability, each of the five
tools performs at most one provider invocation per call — no error kind ever
triggers an automatic retry. -/
theorem c7_at_most_one_provider_invocation (v : PyVal) (p : String → ProviderBehavior) :
    (perplexity_search v p).providerCalls ≤ 1
    ∧ (perplexity_deep_research v p).providerCalls ≤ 1
    ∧ (perplexity_quick_fact v p).providerCalls ≤ 1
    ∧ (perplexity_search_with_citations v p).providerCalls ≤ 1
    ∧ (perplexity_current_events v p).providerCalls ≤ 1 := by
  refine ⟨?_, ?_, ?_, ?_, ?_⟩
  · unfold ToolResult.providerCalls perplexity_search
    (repeat' split) <;> simp
  · unfold ToolResult.providerCalls perplexity_deep_research
    (repeat' split) <;> simp
  · unfold ToolResult.providerCalls perplexity_quick_fact
    (repeat' split) <;> simp
  · unfold ToolResult.providerCalls perplexity_search_with_citations
    (repeat' split) <;> simp
  · unfold ToolResult.providerCalls perplexity_current_events
    (repeat' split) <;> simp

/-- C8: for every input that validates, a provider result whose `"response"`
value is the empty string is a SUCCESS for every tool: the returned dict has
an empty answer text, and the empty answer is never classified as an error. -/
theorem c8_empty_answer_is_valid (q : String) :
    (perplexity_search (.str q)
        (fun _ => .returns (.dict [("response", .str "")]))).result =
      .ok [("answer", .str "")]
    ∧ (perplexity_deep_research (.str q)
        (fun _ => .returns (.dict [("response", .str "")]))).result =
      .ok [("answer", .str "")]
    ∧ (perplexity_quick_fact (.str q)
        (fun _ => .returns (.dict [("response", .str "")]))).result =
      .ok [("answer", .str "")]
    ∧ (perplexity_search_with_citations (.str q)
        (fun _ => .returns (.dict [("response", .str "")]))).result =
      .ok [("answer", .str "")]
    ∧ (perplexity_current_events (.str q)
        (fun _ => .returns (.dict [("response", .str "")]))).result =
      .ok [("answer", .str "")] :=
  ⟨rfl, rfl, rfl, rfl, rfl⟩

/-- C9: invoking the same tool twice with the same input against the same
(deterministic) provider capability yields two structurally equal results,
for each of the five tools; the module holds no state carried between
invocations (an invocation is a pure function of input and capability). -/
theorem c9_idempotent_invocations (v : PyVal) (p : String → ProviderBehavior) :
    (invokeTwice perplexity_search v p).1 = (invokeTwice perplexity_search v p).2
    ∧ (invokeTwice perplexity_deep_research v p).1 = (invokeTwice perplexity_deep_research v p).2
    ∧ (invokeTwice perplexity_quick_fact v p).1 = (invokeTwice perplexity_quick_fact v p).2
    ∧ (invokeTwice perplexity_search_with_citations v p).1 =
      (invokeTwice perplexity_search_with_citations v p).2
    ∧ (invokeTwice perplexity_current_events v p).1 = (invokeTwice perplexity_current_events v p).2 :=
  ⟨rfl, rfl, rfl, rfl, rfl⟩

/-- C1 counterexample: the claim "every raw input that is not a text value or
is the empty string fails with InvalidInput and the provider is never
invoked" is false on the code at two concrete inputs: the empty string `""`
passes pydantic validation of `perplexity_search` (a `str = Field(...)`
field has no non-empty constraint) and the provider IS invoked, returning a
success; and the non-text input `123` passes `perplexity_quick_fact`
validation (the f-string coerces it to text before validation) and the
provider IS invoked. -/
theorem c1_counterexample :
    (perplexity_search (.str "") echoProvider).result =
      .ok [("answer", .str "mock-answer: ")]
    ∧ (perplexity_search (.str "") echoProvider).providerCalls = 1
    ∧ (perplexity_quick_fact (.int 123) echoProvider).result =
      .ok [("answer", .str "mock-answer: Quick fact: 123")]
    ∧ (perplexity_quick_fact (.int 123) echoProvider).providerCalls = 1 :=
  ⟨rfl, rfl, rfl, rfl⟩

/-- C1 (amended): for every raw input that is not a text value, each tool
that validates the raw input directly (`perplexity_search`,
`perplexity_deep_research`, `perplexity_search_with_citations`,
`perplexity_current_events`) fails with the InvalidInput-kind error
(`"Invalid input for <tool>: <validation detail>"`) and the provider is
never invoked; `perplexity_quick_fact` instead coerces the raw input to text
before validation, so it always invokes the provider, and the empty string
is accepted as a valid text input (the provider is invoked for it). -/
theorem c1_nontext_invalid_input_direct_tools (v : PyVal)
    (p : String → ProviderBehavior) (h : v.isStr = false) :
    ((perplexity_search v p).result =
        .error ("Invalid input for perplexity_search: " ++
          string_type_error "PerplexitySearchInput" "query" v)
      ∧ (perplexity_search v p).providerPrompts = [])
    ∧ ((perplexity_deep_research v p).result =
        .error ("Invalid input for perplexity_deep_research: " ++
          string_type_error "PerplexityResearchInput" "query" v)
      ∧ (perplexity_deep_research v p).providerPrompts = [])
    ∧ ((perplexity_search_with_citations v p).result =
        .error ("Invalid input for perplexity_search_with_citations: " ++
          string_type_error "PerplexitySearchInput" "query" v)
      ∧ (perplexity_search_with_citations v p).providerPrompts = [])
    ∧ ((perplexity_current_events v p).result =
        .error ("Invalid input for perplexity_current_events: " ++
          string_type_error "PerplexitySearchInput" "query" v)
      ∧ (perplexity_current_events v p).providerPrompts = [])
    ∧ (perplexity_quick_fact v p).providerCalls = 1
    ∧ (perplexity_search (.str "") p).providerCalls = 1 := by
  have hq : (perplexity_quick_fact v p).providerCalls = 1 := by
    simp [ToolResult.providerCalls, quick_fact_prompts]
  have hs : (perplexity_search (.str "") p).providerCalls = 1 := by
    simp [ToolResult.providerCalls, search_prompts]
  cases v
  case str s => simp [PyVal.isStr] at h
  all_goals exact ⟨⟨rfl, rfl⟩, ⟨rfl, rfl⟩, ⟨rfl, rfl⟩, ⟨rfl, rfl⟩, hq, hs⟩

/-- C1 witness: the amended statement holds at the concrete non-text input
`123` with the echo provider stub. -/
theorem c1_witness :
    ((perplexity_search (.int 123) echoProvider).result =
        .error ("Invalid input for perplexity_search: " ++
          string_type_error "PerplexitySearchInput" "query" (.int 123))
      ∧ (perplexity_search (.int 123) echoProvider).providerPrompts = [])
    ∧ ((perplexity_deep_research (.int 123) echoProvider).result =
        .error ("Invalid input for perplexity_deep_research: " ++
          string_type_error "PerplexityResearchInput" "query" (.int 123))
      ∧ (perplexity_deep_research (.int 123) echoProvider).providerPrompts = [])
    ∧ ((perplexity_search_with_citations (.int 123) echoProvider).result =
        .error ("Invalid input for perplexity_search_with_citations: " ++
          string_type_error "PerplexitySearchInput" "query" (.int 123))
      ∧ (perplexity_search_with_citations (.int 123) echoProvider).providerPrompts = [])
    ∧ ((perplexity_current_events (.int 123) echoProvider).result =
        .error ("Invalid input for perplexity_current_events: " ++
          string_type_error "PerplexitySearchInput" "query" (.int 123))
      ∧ (perplexity_current_events (.int 123) echoProvider).providerPrompts = [])
    ∧ (perplexity_quick_fact (.int 123) echoProvider).providerCalls = 1
    ∧ (perplexity_search (.str "") echoProvider).providerCalls = 1 :=
  c1_nontext_invalid_input_direct_tools (.int 123) echoProvider rfl

/-- C2 counterexample: the claim "the non-text input 123 fails validation
before any provider interaction occurs for every variant (including the
quick-fact variant)" is false on the code: `perplexity_quick_fact` embeds
the raw input into its prefix template BEFORE validation, so `123` is
coerced to the text `"Quick fact: 123"`, validation passes, the provider is
invoked, and the call succeeds. -/
theorem c2_counterexample :
    (perplexity_quick_fact (.int 123) echoProvider).result =
      .ok [("answer", .str "mock-answer: Quick fact: 123")]
    ∧ (perplexity_quick_fact (.int 123) echoProvider).providerPrompts =
      ["Quick fact: 123"] :=
  ⟨rfl, rfl⟩

/-- C2 (amended): for every variant that validates the raw input directly
(`perplexity_search`, `perplexity_deep_research`,
`perplexity_search_with_citations`, `perplexity_current_events`), validation
happens before the prompt template is applied, and the non-text input `123`
fails validation before any provider interaction; the quick-fact variant
instead applies its prefix template to the raw input before validation, so
for input `123` the provider IS invoked, with the coerced prompt
`"Quick fact: 123"`. -/
theorem c2_validation_before_template_direct_tools (p : String → ProviderBehavior) :
    ((perplexity_search (.int 123) p).result =
        .error ("Invalid input for perplexity_search: " ++
          string_type_error "PerplexitySearchInput" "query" (.int 123))
      ∧ (perplexity_search (.int 123) p).providerPrompts = [])
    ∧ ((perplexity_deep_research (.int 123) p).result =
        .error ("Invalid input for perplexity_deep_research: " ++
          string_type_error "PerplexityResearchInput" "query" (.int 123))
      ∧ (perplexity_deep_research (.int 123) p).providerPrompts = [])
    ∧ ((perplexity_search_with_citations (.int 123) p).result =
        .error ("Invalid input for perplexity_search_with_citations: " ++
          string_type_error "PerplexitySearchInput" "query" (.int 123))
      ∧ (perplexity_search_with_citations (.int 123) p).providerPrompts = [])
    ∧ ((perplexity_current_events (.int 123) p).result =
        .error ("Invalid input for perplexity_current_events: " ++
          string_type_error "PerplexitySearchInput" "query" (.int 123))
      ∧ (perplexity_current_events (.int 123) p).providerPrompts = [])
    ∧ (perplexity_quick_fact (.int 123) p).providerPrompts = ["Quick fact: 123"] :=
  ⟨⟨rfl, rfl⟩, ⟨rfl, rfl⟩, ⟨rfl, rfl⟩, ⟨rfl, rfl⟩, quick_fact_prompts (.int 123) p⟩

/-- C4 counterexample: the claim that a MalformedResponse failure "is
distinguishable by the caller from the other three kinds" is false for
ProviderError: a provider result lacking the `"response"` key surfaces the
`KeyError` through the same generic `except Exception` handler that
ProviderError uses, so a provider exception whose message is `'response'`
produces a caller-observable outcome IDENTICAL to the missing-key outcome. -/
theorem c4_counterexample :
    perplexity_search (.str "q") (fun _ => .returns (.dict [])) =
      perplexity_search (.str "q") (fun _ => .raises "\x27response\x27")
    ∧ (perplexity_search (.str "q") (fun _ => .returns (.dict []))).result =
      .error "Perplexity search failed: \x27response\x27" :=
  ⟨rfl, rfl⟩

/-- C4 (amended): for every valid text input and a provider call returning a
mapping without the `"response"` key, `perplexity_search` fails, surfacing
the `KeyError` detail through the generic failure wrapper
(`"Perplexity search failed: 'response'"`); this failure is distinguishable
from InvalidInput and Timeout by its message, but NOT in general from
ProviderError, whose outcome for an identically-worded provider exception is
structurally equal. -/
theorem c4_missing_key_malformed (q : String) (kvs : List (String × PyVal))
    (h : kvs.lookup "response" = Option.none) :
    (perplexity_search (.str q) (fun _ => .returns (.dict kvs))).result =
      .error "Perplexity search failed: \x27response\x27"
    ∧ perplexity_search (.str q) (fun _ => .returns (.dict kvs)) =
      perplexity_search (.str q) (fun _ => .raises "\x27response\x27")
    ∧ (perplexity_search (.str q) (fun _ => .returns (.dict kvs))).result ≠
      .error "Perplexity search timed out after 30 seconds"
    ∧ ∀ detail : String,
      (perplexity_search (.str q) (fun _ => .returns (.dict kvs))).result ≠
        .error ("Invalid input for perplexity_search: " ++ detail) := by
  have hg : pyGetItem (.dict kvs) "response" = .error "\x27response\x27" := by
    unfold pyGetItem
    simp [h]
  have hres : (perplexity_search (.str q) (fun _ => .returns (.dict kvs))).result =
      .error "Perplexity search failed: \x27response\x27" := by
    simp [perplexity_search, PerplexitySearchInput.ofPy, hg]
  refine ⟨hres, ?_, ?_, ?_⟩
  · simp [perplexity_search, PerplexitySearchInput.ofPy, hg]
  · rw [hres]
    intro hc
    exact absurd (Except.error.inj hc) (by decide)
  · intro detail
    rw [hres]
    intro hc
    have hs := Except.error.inj hc
    have hlen := congrArg String.length hs
    rw [String.length_append] at hlen
    have h1 : ("Perplexity search failed: \x27response\x27").length = 36 := rfl
    have h2 : ("Invalid input for perplexity_search: ").length = 37 := rfl
    rw [h1, h2] at hlen
    omega

/-- C4 witness: the amended statement holds at the concrete input `"q"` with
the empty mapping as provider result. -/
theorem c4_witness :
    (perplexity_search (.str "q") (fun _ => .returns (.dict []))).result =
      .error "Perplexity search failed: \x27response\x27"
    ∧ perplexity_search (.str "q") (fun _ => .returns (.dict [])) =
      perplexity_search (.str "q") (fun _ => .raises "\x27response\x27")
    ∧ (perplexity_search (.str "q") (fun _ => .returns (.dict []))).result ≠
      .error "Perplexity search timed out after 30 seconds"
    ∧ ∀ detail : String,
      (perplexity_search (.str "q") (fun _ => .returns (.dict []))).result ≠
        .error ("Invalid input for perplexity_search: " ++ detail) :=
  c4_missing_key_malformed "q" [] rfl

/-- C5: for every valid text input, if the provider call's duration exceeds
the tool's configured time budget (`timeout=30` on the `perplexity_search`
registration), the call is observed as a timeout under the budget race and
the tool fails with the Timeout-kind error carrying the configured duration;
the provider was invoked exactly once (the in-flight call is abandoned, not
retried). -/
theorem c5_timeout_when_duration_exceeds_budget (q : String) (d : Nat)
    (b : String → ProviderBehavior) (h : perplexity_search_timeout < d) :
    (perplexity_search (.str q)
        (fun prompt => runWithBudget perplexity_search_timeout d (b prompt))).result =
      .error ("Perplexity search timed out after " ++
        toString perplexity_search_timeout ++ " seconds")
    ∧ (perplexity_search (.str q)
        (fun prompt => runWithBudget perplexity_search_timeout d (b prompt))).providerPrompts =
      [q] := by
  have hb : ∀ prompt, runWithBudget perplexity_search_timeout d (b prompt) = .timesOut := by
    intro prompt
    unfold runWithBudget
    rw [if_pos h]
  refine ⟨?_, search_prompts q _⟩
  simp only [perplexity_search, PerplexitySearchInput.ofPy, hb]
  rfl

/-- C5 witness: the timeout classification holds at the concrete input `"q"`
with a provider call of duration 31 seconds against the 30-second budget. -/
theorem c5_witness :
    (perplexity_search (.str "q")
        (fun prompt => runWithBudget perplexity_search_timeout 31
          ((fun _ => ProviderBehavior.returns (.dict [("response", .str "late")])) prompt))).result =
      .error ("Perplexity search timed out after " ++
        toString perplexity_search_timeout ++ " seconds")
    ∧ (perplexity_search (.str "q")
        (fun prompt => runWithBudget perplexity_search_timeout 31
          ((fun _ => ProviderBehavior.returns (.dict [("response", .str "late")])) prompt))).providerPrompts =
      ["q"] :=
  c5_timeout_when_duration_exceeds_budget "q" 31
    (fun _ => ProviderBehavior.returns (.dict [("response", .str "late")])) (by decide)

/-- C10: for every tool, every raw input, every provider capability and every
successful invocation, the returned value is the dict with exactly the one
key `"answer"` mapped to a text value — no success path returns extra keys
or a partially populated response. -/
theorem c10_success_is_single_answer_key (v : PyVal) (p : String → ProviderBehavior)
    (d : List (String × PyVal)) :
    ((perplexity_search v p).result = .ok d → ∃ s, d = [("answer", .str s)])
    ∧ ((perplexity_deep_research v p).result = .ok d → ∃ s, d = [("answer", .str s)])
    ∧ ((perplexity_quick_fact v p).result = .ok d → ∃ s, d = [("answer", .str s)])
    ∧ ((perplexity_search_with_citations v p).result = .ok d → ∃ s, d = [("answer", .str s)])
    ∧ ((perplexity_current_events v p).result = .ok d → ∃ s, d = [("answer", .str s)]) := by
  refine ⟨?_, ?_, ?_, ?_, ?_⟩
  · intro h
    unfold perplexity_search at h
    (repeat' split at h) <;>
      simp_all [PerplexitySearchResult.model_dump]
    all_goals exact ⟨_, h.symm⟩
  · intro h
    unfold perplexity_deep_research at h
    (repeat' split at h) <;>
      simp_all [PerplexityResearchResult.model_dump]
    all_goals exact ⟨_, h.symm⟩
  · intro h
    unfold perplexity_quick_fact at h
    (repeat' split at h) <;>
      simp_all [PerplexitySearchResult.model_dump]
    all_goals exact ⟨_, h.symm⟩
  · intro h
    unfold perplexity_search_with_citations at h
    (repeat' split at h) <;>
      simp_all [PerplexitySearchResult.model_dump]
    all_goals exact ⟨_, h.symm⟩
  · intro h
    unfold perplexity_current_events at h
    (repeat' split at h) <;>
      simp_all [PerplexitySearchResult.model_dump]
    all_goals exact ⟨_, h.symm⟩

/-- C10 witness: the success-shape property applied at the concrete test
scenario (input `"Hello?"`, echo stub): the returned dict is the singleton
`answer` mapping. -/
theorem c10_witness :
    ∃ s, [("answer", PyVal.str "mock-answer: Hello?")] = [("answer", PyVal.str s)] :=
  (c10_success_is_single_answer_key (.str "Hello?") echoProvider
    [("answer", PyVal.str "mock-answer: Hello?")]).1 rfl
